import Mathlib

/-!
Shallow embedding of the hardware-facing layer of the Pico development kit:
the ST7796 display driver (src/st7796.c), the GT911 capacitive-touch driver
(src/gt911.c), and the LVGL display port (src/lv_port_disp.c).  Bus traffic
is modelled as explicit event traces; the I2C bus is an oracle mapping a
register address to the byte delivered (or none on a failed transaction).
-/

namespace PicoDevKit

/-! ### ST7796 display driver (src/st7796.c, src/st7796.h) -/

/-- ST7796 command byte: Column Address Set (st7796.h). -/
def ST7796_CMD_CASET : Nat := 0x2A

/-- ST7796 command byte: Row Address Set (st7796.h). -/
def ST7796_CMD_RASET : Nat := 0x2B

/-- ST7796 command byte: Memory Write (st7796.h). -/
def ST7796_CMD_RAMWR : Nat := 0x2C

/-- ST7796 command byte: Memory Access Control (st7796.h). -/
def ST7796_CMD_MADCTL : Nat := 0x36

/-- Screen orientation (st7796.h, enum st7796_orientation_t). -/
inductive st7796_orientation_t where
  | PORTRAIT
  | LANDSCAPE
  | PORTRAIT_INV
  | LANDSCAPE_INV
deriving DecidableEq, Repr

/-- One observable SPI transaction of the display driver: a command byte
(chip select asserted, DC low) or a data burst (chip select asserted,
DC high). -/
inductive SPIEvent where
  | cmd (b : Nat)
  | data (bytes : List Nat)
deriving DecidableEq, Repr

/-- st7796_write_cmd: asserts CS, drives DC low and sends one command byte
(a uint8, hence the truncation). -/
def st7796_write_cmd (c : Nat) : List SPIEvent :=
  [SPIEvent.cmd (c % 256)]

/-- st7796_write_data: asserts CS, drives DC high and sends the byte buffer;
a no-op when the length is zero (or the pointer is NULL). -/
def st7796_write_data (data : List Nat) : List SPIEvent :=
  if data.length = 0 then [] else [SPIEvent.data data]

/-- st7796_set_orientation: stores the new orientation in the static
current_orientation, sends the MADCTL command, then sends the MADCTL register
value as a single data byte (the source drives CS/DC around a one-byte SPI
write directly, which is observationally one data byte).  Returns the updated
current_orientation together with the emitted trace. -/
def st7796_set_orientation (orientation : st7796_orientation_t) :
    st7796_orientation_t × List SPIEvent :=
  let madctl_value : Nat :=
    match orientation with
    | .PORTRAIT => 0x48
    | .LANDSCAPE => 0x28
    | .PORTRAIT_INV => 0x88
    | .LANDSCAPE_INV => 0xE8
  (orientation, st7796_write_cmd ST7796_CMD_MADCTL ++ [SPIEvent.data [madctl_value]])

/-- st7796_set_window: column address range (x1, x2 as big-endian byte
pairs), row address range (y1, y2 likewise), then the Memory Write command
with no payload.  Coordinates are uint16 values. -/
def st7796_set_window (x1 y1 x2 y2 : Nat) : List SPIEvent :=
  st7796_write_cmd ST7796_CMD_CASET ++
    st7796_write_data
      [(x1 >>> 8) &&& 0xFF, x1 &&& 0xFF, (x2 >>> 8) &&& 0xFF, x2 &&& 0xFF] ++
  st7796_write_cmd ST7796_CMD_RASET ++
    st7796_write_data
      [(y1 >>> 8) &&& 0xFF, y1 &&& 0xFF, (y2 >>> 8) &&& 0xFF, y2 &&& 0xFF] ++
  st7796_write_cmd ST7796_CMD_RAMWR

/-- st7796_write_color: streams the pixel array verbatim as raw bytes inside
one data transaction; a no-op when the count is zero (or the pointer NULL).
The source reinterprets the uint16 array as a byte buffer on a little-endian
MCU, so each pixel contributes its low byte followed by its high byte. -/
def st7796_write_color (color : List Nat) : List Nat :=
  if color.length = 0 then []
  else color.flatMap (fun p => [p % 256, p / 256 % 256])

/-! ### LVGL display port (src/lv_port_disp.c) -/

/-- LVGL area rectangle with inclusive bounds. -/
structure lv_area_t where
  x1 : Nat
  y1 : Nat
  x2 : Nat
  y2 : Nat
deriving DecidableEq, Repr

/-- Width of an inclusive-bounds LVGL area (the rendering engine's accessor;
the spec defines DisplayWindow as an inclusive (x1,y1)-(x2,y2) rectangle). -/
def lv_area_get_width (area : lv_area_t) : Nat := area.x2 - area.x1 + 1

/-- Height of an inclusive-bounds LVGL area. -/
def lv_area_get_height (area : lv_area_t) : Nat := area.y2 - area.y1 + 1

/-- Observable actions of one disp_flush call: a set_window call, a
write_color call with a pixel count, or the completion signal
lv_disp_flush_ready handed back to the rendering engine. -/
inductive DispEvent where
  | set_window (x1 y1 x2 y2 : Nat)
  | write_color (count : Nat)
  | flush_ready
deriving DecidableEq, Repr

/-- disp_flush (src/lv_port_disp.c): when disp_flush_enabled is false, only
signals completion; otherwise sets the window to the area, writes
width*height pixels, then signals completion. -/
def disp_flush (disp_flush_enabled : Bool) (area : lv_area_t) : List DispEvent :=
  if disp_flush_enabled = false then [DispEvent.flush_ready]
  else
    [DispEvent.set_window area.x1 area.y1 area.x2 area.y2,
     DispEvent.write_color (lv_area_get_width area * lv_area_get_height area),
     DispEvent.flush_ready]

/-! ### GT911 touch driver (src/gt911.c, src/gt911.h) -/

/-- GT911 register: first product-identifier byte (gt911.h). -/
def GT911_REG_PRODUCT_ID1 : Nat := 0x8140

/-- GT911 register: X resolution, low byte (gt911.h). -/
def GT911_REG_X_RES_L : Nat := 0x8146

/-- GT911 register: X resolution, high byte (gt911.h). -/
def GT911_REG_X_RES_H : Nat := 0x8147

/-- GT911 register: Y resolution, low byte (gt911.h). -/
def GT911_REG_Y_RES_L : Nat := 0x8148

/-- GT911 register: Y resolution, high byte (gt911.h). -/
def GT911_REG_Y_RES_H : Nat := 0x8149

/-- GT911 register: vendor identifier (gt911.h). -/
def GT911_REG_VENDOR_ID : Nat := 0x814A

/-- GT911 register: touch status (gt911.h). -/
def GT911_REG_STATUS : Nat := 0x814E

/-- GT911 register: point 1 X coordinate, low byte (gt911.h). -/
def GT911_REG_PT1_X_L : Nat := 0x8150

/-- GT911 register: point 1 X coordinate, high byte (gt911.h). -/
def GT911_REG_PT1_X_H : Nat := 0x8151

/-- GT911 register: point 1 Y coordinate, low byte (gt911.h). -/
def GT911_REG_PT1_Y_L : Nat := 0x8152

/-- GT911 register: point 1 Y coordinate, high byte (gt911.h). -/
def GT911_REG_PT1_Y_H : Nat := 0x8153

/-- Status-register bit 7: buffer ready (gt911.h). -/
def GT911_STATUS_BUF_READY : Nat := 0x80

/-- Status-register low 4 bits: contact count mask (gt911.h). -/
def GT911_STATUS_PT_MASK : Nat := 0x0F

/-- GT911 I2C slave address (gt911.h). -/
def GT911_I2C_ADDR : Nat := 0x5D

/-- Product-identifier length in bytes (gt911.h). -/
def GT911_PRODUCT_ID_LEN : Nat := 4

/-- The I2C bus as an oracle: a single-byte register read either fails
(none) or delivers a byte. -/
abbrev I2CBus := Nat → Option Nat

/-- One observable I2C transaction of the touch driver: a combined
address-phase-then-read transaction (recording the register and the result),
or a raw write of a byte buffer. -/
inductive I2CEvent where
  | read (reg : Nat) (result : Option Nat)
  | write (bytes : List Nat)
deriving DecidableEq, Repr

/-- Whether an I2C trace event is a bus write. -/
def I2CEvent.isWrite : I2CEvent → Bool
  | I2CEvent.write _ => true
  | I2CEvent.read _ _ => false

/-- gt911_i2c_read_reg with len = 1 (every call in the driver reads a single
byte into a uint8): the delivered byte truncated to 8 bits, or none on a bus
failure. -/
def gt911_i2c_read_reg (bus : I2CBus) (reg : Nat) : Option Nat :=
  (bus reg).map (fun b => b % 256)

/-- The trace event of one gt911_i2c_read_reg call. -/
def gt911_read_event (bus : I2CBus) (reg : Nat) : I2CEvent :=
  I2CEvent.read reg (gt911_i2c_read_reg bus reg)

/-- gt911_clear_status: acknowledges the current sample by sending the raw
3-byte I2C buffer address-high 0x81, address-low 0x4E, data 0x00 -- one write
of a single zero byte to the status register 0x814E. -/
def gt911_clear_status : I2CEvent :=
  I2CEvent.write [0x81, 0x4E, 0x00]

/-- gt911_dev_t (gt911.h): the driver's device state; product_id is the
5-slot char array (4 identifier bytes plus the terminator slot). -/
structure gt911_dev_t where
  initialized : Bool
  product_id : List Nat
  max_x : Nat
  max_y : Nat
  i2c_addr : Nat
deriving DecidableEq, Repr

/-- The static gt911_dev initializer (src/gt911.c). -/
def gt911_dev_init : gt911_dev_t :=
  { initialized := false
    product_id := [0, 0, 0, 0, 0]
    max_x := 0
    max_y := 0
    i2c_addr := GT911_I2C_ADDR }

/-- The registers gt911_init reads, in program order: the liveness probe at
the product-id base, the four product-id bytes, the vendor id, then the X and
Y resolution byte pairs. -/
def gt911_init_regs : List Nat :=
  [GT911_REG_PRODUCT_ID1,
   GT911_REG_PRODUCT_ID1, GT911_REG_PRODUCT_ID1 + 1,
   GT911_REG_PRODUCT_ID1 + 2, GT911_REG_PRODUCT_ID1 + 3,
   GT911_REG_VENDOR_ID,
   GT911_REG_X_RES_L, GT911_REG_X_RES_H,
   GT911_REG_Y_RES_L, GT911_REG_Y_RES_H]

/-- The trace of the first k register reads of gt911_init. -/
def gt911_init_trace (bus : I2CBus) (k : Nat) : List I2CEvent :=
  (gt911_init_regs.take k).map (gt911_read_event bus)

/-- The product-id array after the identification loop of gt911_init: the
four bytes stored in order, then the terminator slot zeroed. -/
def gt911_product_id_final (pid : List Nat) (p0 p1 p2 p3 : Nat) : List Nat :=
  ((((pid.set 0 p0).set 1 p1).set 2 p2).set 3 p3).set GT911_PRODUCT_ID_LEN 0

/-- gt911_init (src/gt911.c): returns the result flag, the device state
after the call, and the I2C trace.  i2c_ok models whether the local I2C
peripheral bring-up (gt911_i2c_init) succeeds; that step issues no register
transaction.  Each register read failure returns false at once, leaving in
the device structure whatever earlier reads already stored there; the
initialized flag is set only after every read has succeeded. -/
def gt911_init (i2c_ok : Bool) (bus : I2CBus) (dev : gt911_dev_t) :
    Bool × gt911_dev_t × List I2CEvent :=
  if dev.initialized then (true, dev, [])
  else if i2c_ok = false then (false, dev, [])
  else
    match gt911_i2c_read_reg bus GT911_REG_PRODUCT_ID1 with
    | none => (false, dev, gt911_init_trace bus 1)
    | some _ =>
    match gt911_i2c_read_reg bus (GT911_REG_PRODUCT_ID1 + 0) with
    | none => (false, dev, gt911_init_trace bus 2)
    | some p0 =>
    match gt911_i2c_read_reg bus (GT911_REG_PRODUCT_ID1 + 1) with
    | none =>
        (false, { dev with product_id := dev.product_id.set 0 p0 },
         gt911_init_trace bus 3)
    | some p1 =>
    match gt911_i2c_read_reg bus (GT911_REG_PRODUCT_ID1 + 2) with
    | none =>
        (false, { dev with product_id := (dev.product_id.set 0 p0).set 1 p1 },
         gt911_init_trace bus 4)
    | some p2 =>
    match gt911_i2c_read_reg bus (GT911_REG_PRODUCT_ID1 + 3) with
    | none =>
        (false,
         { dev with product_id := ((dev.product_id.set 0 p0).set 1 p1).set 2 p2 },
         gt911_init_trace bus 5)
    | some p3 =>
    match gt911_i2c_read_reg bus GT911_REG_VENDOR_ID with
    | none =>
        (false,
         { dev with product_id := gt911_product_id_final dev.product_id p0 p1 p2 p3 },
         gt911_init_trace bus 6)
    | some _ =>
    match gt911_i2c_read_reg bus GT911_REG_X_RES_L with
    | none =>
        (false,
         { dev with product_id := gt911_product_id_final dev.product_id p0 p1 p2 p3 },
         gt911_init_trace bus 7)
    | some xl =>
    match gt911_i2c_read_reg bus GT911_REG_X_RES_H with
    | none =>
        (false,
         { dev with
           product_id := gt911_product_id_final dev.product_id p0 p1 p2 p3,
           max_x := xl },
         gt911_init_trace bus 8)
    | some xh =>
    match gt911_i2c_read_reg bus GT911_REG_Y_RES_L with
    | none =>
        (false,
         { dev with
           product_id := gt911_product_id_final dev.product_id p0 p1 p2 p3,
           max_x := xl ||| (xh <<< 8) },
         gt911_init_trace bus 9)
    | some yl =>
    match gt911_i2c_read_reg bus GT911_REG_Y_RES_H with
    | none =>
        (false,
         { dev with
           product_id := gt911_product_id_final dev.product_id p0 p1 p2 p3,
           max_x := xl ||| (xh <<< 8),
           max_y := yl },
         gt911_init_trace bus 10)
    | some yh =>
        (true,
         { dev with
           product_id := gt911_product_id_final dev.product_id p0 p1 p2 p3,
           max_x := xl ||| (xh <<< 8),
           max_y := yl ||| (yh <<< 8),
           initialized := true },
         gt911_init_trace bus 10)

/-- The gt911_read_touch driver state: the device plus the function-static
last_x and last_y retained coordinates (both initialized to 0). -/
structure gt911_state where
  dev : gt911_dev_t
  last_x : Nat
  last_y : Nat
deriving DecidableEq, Repr

/-- Result of one gt911_read_touch call: the returned flag, the driver state
afterwards, the output parameters (x, y, pressed) when they were written
(none on the failure paths, which leave the outputs untouched), and the I2C
trace. -/
structure gt911_read_result where
  ok : Bool
  state : gt911_state
  out : Option (Nat × Nat × Bool)
  trace : List I2CEvent
deriving DecidableEq, Repr

/-- gt911_read_touch (src/gt911.c): fails fast when not initialized; reads
the status register; extracts the contact count from the low 4 bits;
acknowledges (writes 0x00 back to the status register) when the buffer-ready
bit is set or the raw count is below 6; on contact count exactly 1 reads the
four coordinate bytes in four separate transactions, committing each byte
into the retained last_x / last_y as it arrives and returning failure at the
first unsuccessful read; on any other count reports the retained coordinate
with pressed = false. -/
def gt911_read_touch (bus : I2CBus) (s : gt911_state) : gt911_read_result :=
  if s.dev.initialized = false then ⟨false, s, none, []⟩
  else
    match gt911_i2c_read_reg bus GT911_REG_STATUS with
    | none => ⟨false, s, none, [gt911_read_event bus GT911_REG_STATUS]⟩
    | some status_reg =>
      let touch_count := status_reg &&& GT911_STATUS_PT_MASK
      let t1 :=
        if status_reg &&& GT911_STATUS_BUF_READY ≠ 0 ∨ touch_count < 6 then
          [gt911_read_event bus GT911_REG_STATUS, gt911_clear_status]
        else
          [gt911_read_event bus GT911_REG_STATUS]
      if touch_count = 1 then
        match gt911_i2c_read_reg bus GT911_REG_PT1_X_L with
        | none => ⟨false, s, none, t1 ++ [gt911_read_event bus GT911_REG_PT1_X_L]⟩
        | some d0 =>
        match gt911_i2c_read_reg bus GT911_REG_PT1_X_H with
        | none =>
            ⟨false, { s with last_x := d0 }, none,
             t1 ++ [gt911_read_event bus GT911_REG_PT1_X_L,
                    gt911_read_event bus GT911_REG_PT1_X_H]⟩
        | some d1 =>
        match gt911_i2c_read_reg bus GT911_REG_PT1_Y_L with
        | none =>
            ⟨false, { s with last_x := d0 ||| (d1 <<< 8) }, none,
             t1 ++ [gt911_read_event bus GT911_REG_PT1_X_L,
                    gt911_read_event bus GT911_REG_PT1_X_H,
                    gt911_read_event bus GT911_REG_PT1_Y_L]⟩
        | some d2 =>
        match gt911_i2c_read_reg bus GT911_REG_PT1_Y_H with
        | none =>
            ⟨false, { s with last_x := d0 ||| (d1 <<< 8), last_y := d2 }, none,
             t1 ++ [gt911_read_event bus GT911_REG_PT1_X_L,
                    gt911_read_event bus GT911_REG_PT1_X_H,
                    gt911_read_event bus GT911_REG_PT1_Y_L,
                    gt911_read_event bus GT911_REG_PT1_Y_H]⟩
        | some d3 =>
            ⟨true,
             { s with last_x := d0 ||| (d1 <<< 8), last_y := d2 ||| (d3 <<< 8) },
             some (d0 ||| (d1 <<< 8), d2 ||| (d3 <<< 8), true),
             t1 ++ [gt911_read_event bus GT911_REG_PT1_X_L,
                    gt911_read_event bus GT911_REG_PT1_X_H,
                    gt911_read_event bus GT911_REG_PT1_Y_L,
                    gt911_read_event bus GT911_REG_PT1_Y_H]⟩
      else
        ⟨true, s, some (s.last_x, s.last_y, false), t1⟩


/-! ### Concrete buses and states used by witnesses and counterexamples -/

/-- A bus on which every register read delivers 0x40 except the X-resolution
high byte, whose read fails. -/
def busResHFail : I2CBus := fun reg =>
  if reg = GT911_REG_X_RES_H then none else some 0x40

/-- The spec's resolution scenario: X low 0x40, X high 0x01, Y low 0xE0,
Y high 0x01; identification bytes 0x39. -/
def busResScenario : I2CBus := fun reg =>
  if reg = GT911_REG_X_RES_L then some 0x40
  else if reg = GT911_REG_X_RES_H then some 0x01
  else if reg = GT911_REG_Y_RES_L then some 0xE0
  else if reg = GT911_REG_Y_RES_H then some 0x01
  else some 0x39

/-- A bus on which only the status read succeeds (status byte 0x81,
single contact); every coordinate read fails. -/
def busCoordFail : I2CBus := fun reg =>
  if reg = GT911_REG_STATUS then some 0x81 else none

/-- A bus on which the status read succeeds with 0x81 and the X-low
coordinate read delivers 0x05, but the X-high read fails. -/
def busXHighFail : I2CBus := fun reg =>
  if reg = GT911_REG_STATUS then some 0x81
  else if reg = GT911_REG_PT1_X_L then some 0x05
  else none

/-- The spec's single-touch scenario: status 0x81, X = 0x0064, Y = 0x00C8. -/
def busTouchScenario : I2CBus := fun reg =>
  if reg = GT911_REG_STATUS then some 0x81
  else if reg = GT911_REG_PT1_X_L then some 0x64
  else if reg = GT911_REG_PT1_X_H then some 0x00
  else if reg = GT911_REG_PT1_Y_L then some 0xC8
  else if reg = GT911_REG_PT1_Y_H then some 0x00
  else some 0

/-- A bus whose status read delivers 0x00 (no contact). -/
def busStatusZero : I2CBus := fun reg =>
  if reg = GT911_REG_STATUS then some 0x00 else none

/-- An initialized driver state retaining the coordinate (100, 200). -/
def gt911_state_ready : gt911_state :=
  { dev := { gt911_dev_init with initialized := true }, last_x := 100, last_y := 200 }

/-- An initialized driver state with no retained coordinate yet. -/
def gt911_state_zero : gt911_state :=
  { dev := { gt911_dev_init with initialized := true }, last_x := 0, last_y := 0 }

/-! ### General helper lemmas -/

/-- Little-endian assembly: for a low byte a, the OR with a value shifted
left by 8 bits is plain addition. -/
theorem lor_shiftLeft_eight (a b : Nat) (ha : a < 256) :
    a ||| b <<< 8 = a + 256 * b := by
  have h256 : a < 2 ^ 8 := by norm_num; omega
  have h := Nat.mul_add_lt_is_or h256 b
  rw [Nat.shiftLeft_eq, Nat.lor_comm, Nat.mul_comm b (2 ^ 8), ← h]
  have hp : (2 : Nat) ^ 8 = 256 := by norm_num
  rw [hp]
  omega

/-- Masking with 0x0F extracts the value modulo 16. -/
theorem land_fifteen (x : Nat) : x &&& 0x0F = x % 16 := by
  have h := Nat.and_pow_two_sub_one_eq_mod x 4
  norm_num at h
  exact h

/-- Masking with 0xFF extracts the value modulo 256. -/
theorem land_twofiftyfive (x : Nat) : x &&& 0xFF = x % 256 := by
  have h := Nat.and_pow_two_sub_one_eq_mod x 8
  norm_num at h
  exact h

/-- Masking with 0x80 is nonzero exactly when bit 7 is set. -/
theorem land_bit_seven (x : Nat) : x &&& 0x80 ≠ 0 ↔ x.testBit 7 = true := by
  have h := Nat.and_two_pow x 7
  norm_num at h
  rw [h]
  cases hx : x.testBit 7 <;> simp


/-! ### Structural helper theorems -/

/-- Every run of gt911_init either fails leaving the initialized flag as it
was, or succeeds leaving it set. -/
theorem gt911_init_cases (i2c_ok : Bool) (bus : I2CBus) (dev : gt911_dev_t) :
    ((gt911_init i2c_ok bus dev).1 = false ∧
     (gt911_init i2c_ok bus dev).2.1.initialized = dev.initialized) ∨
    ((gt911_init i2c_ok bus dev).1 = true ∧
     (gt911_init i2c_ok bus dev).2.1.initialized = true) := by
  unfold gt911_init
  repeat' split
  all_goals simp_all

/-- A successful fresh gt911_init run implies every one of its register reads
found the bus delivering a byte. -/
theorem gt911_init_ok_reads (i2c_ok : Bool) (bus : I2CBus) (dev : gt911_dev_t) :
    (gt911_init i2c_ok bus dev).1 = false ∨ dev.initialized = true ∨
      ∀ r ∈ gt911_init_regs, (bus r).isSome = true := by
  have hs : ∀ (reg v : Nat), gt911_i2c_read_reg bus reg = some v →
      (bus reg).isSome = true := by
    intro reg v hv
    rcases Option.map_eq_some'.mp hv with ⟨a, ha, -⟩
    rw [ha]
    rfl
  unfold gt911_init
  repeat' split
  any_goals (left; rfl)
  · right
    left
    assumption
  · right
    right
    intro r hr
    simp only [gt911_init_regs, List.mem_cons, List.not_mem_nil, or_false] at hr
    rcases hr with rfl | rfl | rfl | rfl | rfl | rfl | rfl | rfl | rfl | rfl
    all_goals exact hs _ _ (by assumption)

/-- On an already-initialized device gt911_init returns success at once, with
the state unchanged and no bus transaction. -/
theorem gt911_init_already (i2c_ok : Bool) (bus : I2CBus) (dev : gt911_dev_t)
    (h : dev.initialized = true) :
    gt911_init i2c_ok bus dev = (true, dev, []) := by
  unfold gt911_init
  rw [if_pos h]

/-- st7796_write_color coincides with the per-pixel byte expansion (the
length-zero guard is redundant for the empty list). -/
theorem st7796_write_color_eq_flatMap (color : List Nat) :
    st7796_write_color color = color.flatMap (fun p => [p % 256, p / 256 % 256]) := by
  unfold st7796_write_color
  split
  · rename_i h
    rw [List.length_eq_zero.mp h]
    rfl
  · rfl

/-- st7796_write_color emits two bytes per pixel. -/
theorem st7796_write_color_length (color : List Nat) :
    (st7796_write_color color).length = 2 * color.length := by
  rw [st7796_write_color_eq_flatMap]
  induction color with
  | nil => rfl
  | cons q qs ih =>
    rw [List.flatMap_cons, List.length_append, ih, List.length_cons]
    simp only [List.length_cons, List.length_nil]
    omega

/-- Bytes 2i and 2i+1 of the st7796_write_color stream are the low and high
byte of pixel i. -/
theorem st7796_write_color_getElem (color : List Nat) (i p : Nat)
    (hip : color[i]? = some p) :
    (st7796_write_color color)[2 * i]? = some (p % 256) ∧
    (st7796_write_color color)[2 * i + 1]? = some (p / 256 % 256) := by
  rw [st7796_write_color_eq_flatMap]
  induction color generalizing i with
  | nil => simp at hip
  | cons q qs ih =>
    cases i with
    | zero =>
      simp only [List.getElem?_cons_zero, Option.some_inj] at hip
      subst hip
      constructor <;> simp [List.flatMap_cons]
    | succ j =>
      simp only [List.getElem?_cons_succ] at hip
      have e1 : 2 * (j + 1) = 2 * j + 1 + 1 := by omega
      have e2 : 2 * (j + 1) + 1 = 2 * j + 1 + 1 + 1 := by omega
      refine ⟨?_, ?_⟩
      · rw [List.flatMap_cons, List.cons_append, List.cons_append, List.nil_append, e1,
            List.getElem?_cons_succ, List.getElem?_cons_succ]
        exact (ih j hip).1
      · rw [List.flatMap_cons, List.cons_append, List.cons_append, List.nil_append, e2,
            List.getElem?_cons_succ, List.getElem?_cons_succ]
        exact (ih j hip).2

/-! ### Claim theorems -/

/-- C1 counterexample: on a bus where every read up to the X-resolution low
byte succeeds (delivering 0x40) and the X-resolution high-byte read fails,
gt911_init returns failure with initialized still false, yet partial state
has been committed to the device structure: max_x already holds the low byte
0x40 and the structure differs from its initial value (product-id bytes are
written as well), contradicting that no partial state is committed. -/
theorem gt911_init_partial_commit :
    (gt911_init true busResHFail gt911_dev_init).1 = false ∧
    (gt911_init true busResHFail gt911_dev_init).2.1.initialized = false ∧
    (gt911_init true busResHFail gt911_dev_init).2.1.max_x = 0x40 ∧
    ¬ (gt911_init true busResHFail gt911_dev_init).2.1 = gt911_dev_init := by
  decide

/-- C1 (amended): on a fresh device, if gt911_init fails the initialized
flag remains false, and any failing identification/resolution register read
makes it fail (already-read product-id and resolution bytes may remain
committed in the device structure); if every read succeeds it returns
success with initialized = true and max_x / max_y equal to the little-endian
assembly of the resolution registers. -/
theorem gt911_init_spec (i2c_ok : Bool) (bus : I2CBus) (dev : gt911_dev_t)
    (hdev : dev.initialized = false) :
    ((gt911_init i2c_ok bus dev).1 = false →
      (gt911_init i2c_ok bus dev).2.1.initialized = false) ∧
    (∀ r ∈ gt911_init_regs, bus r = none →
      (gt911_init i2c_ok bus dev).1 = false) ∧
    (∀ p1 p2 p3 p4 v xl xh yl yh,
      i2c_ok = true →
      bus GT911_REG_PRODUCT_ID1 = some p1 →
      bus (GT911_REG_PRODUCT_ID1 + 1) = some p2 →
      bus (GT911_REG_PRODUCT_ID1 + 2) = some p3 →
      bus (GT911_REG_PRODUCT_ID1 + 3) = some p4 →
      bus GT911_REG_VENDOR_ID = some v →
      bus GT911_REG_X_RES_L = some xl →
      bus GT911_REG_X_RES_H = some xh →
      bus GT911_REG_Y_RES_L = some yl →
      bus GT911_REG_Y_RES_H = some yh →
      (gt911_init i2c_ok bus dev).1 = true ∧
      (gt911_init i2c_ok bus dev).2.1.initialized = true ∧
      (gt911_init i2c_ok bus dev).2.1.max_x = xl % 256 + 256 * (xh % 256) ∧
      (gt911_init i2c_ok bus dev).2.1.max_y = yl % 256 + 256 * (yh % 256)) := by
  refine ⟨?_, ?_, ?_⟩
  · intro h
    rcases gt911_init_cases i2c_ok bus dev with ⟨_, he⟩ | ⟨ht, _⟩
    · rw [he, hdev]
    · rw [ht] at h
      exact absurd h (by simp)
  · intro r hr hnone
    rcases gt911_init_ok_reads i2c_ok bus dev with hf | hi | hreads
    · exact hf
    · rw [hdev] at hi
      exact absurd hi (by simp)
    · have := hreads r hr
      rw [hnone] at this
      exact absurd this (by simp)
  · intro p1 p2 p3 p4 v xl xh yl yh hi h1 h2 h3 h4 h5 h6 h7 h8 h9
    have hxl : xl % 256 < 256 := Nat.mod_lt _ (by norm_num)
    have hyl : yl % 256 < 256 := Nat.mod_lt _ (by norm_num)
    simp only [gt911_init, gt911_i2c_read_reg, hdev, hi, Nat.add_zero,
      h1, h2, h3, h4, h5, h6, h7, h8, h9, Option.map_some']
    simp only [Bool.false_eq_true, if_false, if_true]
    refine ⟨rfl, rfl, ?_, ?_⟩
    · exact lor_shiftLeft_eight _ _ hxl
    · exact lor_shiftLeft_eight _ _ hyl

/-- C1 witness: the spec scenario (X low 0x40, X high 0x01, Y low 0xE0,
Y high 0x01) yields success with max_x = 320 and max_y = 480. -/
theorem gt911_init_spec_witness :
    (gt911_init true busResScenario gt911_dev_init).1 = true ∧
    (gt911_init true busResScenario gt911_dev_init).2.1.initialized = true ∧
    (gt911_init true busResScenario gt911_dev_init).2.1.max_x = 320 ∧
    (gt911_init true busResScenario gt911_dev_init).2.1.max_y = 480 := by
  have h := (gt911_init_spec true busResScenario gt911_dev_init rfl).2.2
    0x39 0x39 0x39 0x39 0x39 0x40 0x01 0xE0 0x01
    rfl rfl rfl rfl rfl rfl rfl rfl rfl rfl
  exact ⟨h.1, h.2.1, h.2.2.1, h.2.2.2⟩

/-- C2 counterexample: on an initialized device the status read succeeds
with 0x81 (single contact) but the X-low coordinate read fails, and
gt911_read_touch returns failure, contradicting that it returns success
regardless of the contact-count branch once the status read has succeeded. -/
theorem gt911_read_touch_coord_fail :
    busCoordFail GT911_REG_STATUS = some 0x81 ∧
    gt911_state_ready.dev.initialized = true ∧
    (gt911_read_touch busCoordFail gt911_state_ready).ok = false := by
  decide

/-- C2 (amended): on an initialized device whose status read succeeds,
gt911_read_touch returns success in the no-contact and multi-contact
branches; in the single-contact branch it returns success exactly when all
four coordinate reads also succeed. -/
theorem gt911_read_touch_status_spec (bus : I2CBus) (s : gt911_state) (st : Nat)
    (hinit : s.dev.initialized = true)
    (hst : bus GT911_REG_STATUS = some st) :
    (st % 256 &&& GT911_STATUS_PT_MASK ≠ 1 → (gt911_read_touch bus s).ok = true) ∧
    (st % 256 &&& GT911_STATUS_PT_MASK = 1 →
      ((gt911_read_touch bus s).ok = true ↔
        ((bus GT911_REG_PT1_X_L).isSome = true ∧
         (bus GT911_REG_PT1_X_H).isSome = true ∧
         (bus GT911_REG_PT1_Y_L).isSome = true ∧
         (bus GT911_REG_PT1_Y_H).isSome = true))) := by
  simp only [gt911_read_touch, gt911_i2c_read_reg, hinit, hst, Option.map_some']
  constructor
  · intro hc
    simp [hc]
  · intro hc
    simp only [hc, if_true, reduceIte]
    cases hxl : bus GT911_REG_PT1_X_L with
    | none => simp [hxl]
    | some a =>
      cases hxh : bus GT911_REG_PT1_X_H with
      | none => simp [hxl, hxh]
      | some b =>
        cases hyl : bus GT911_REG_PT1_Y_L with
        | none => simp [hxl, hxh, hyl]
        | some c =>
          cases hyh : bus GT911_REG_PT1_Y_H with
          | none => simp [hxl, hxh, hyl, hyh]
          | some d => simp [hxl, hxh, hyl, hyh]

/-- C2 witness: the single-touch scenario bus, on which all four coordinate
reads succeed, returns success. -/
theorem gt911_read_touch_status_spec_witness :
    (gt911_read_touch busTouchScenario gt911_state_ready).ok = true := by
  have h := (gt911_read_touch_status_spec busTouchScenario gt911_state_ready 0x81
    rfl rfl).2 (by decide)
  exact h.mpr (by decide)

/-- C3: on an initialized device whose status read succeeds with byte st,
the bus writes of the call are exactly one acknowledgment (the single zero
byte sent to status register 0x814E) when bit 7 of st is set or its low
4 bits are below 6, and none otherwise; a status byte of 0x00 still triggers
the acknowledgment and yields pressed = false with the retained coordinate
unchanged. -/
theorem gt911_read_touch_ack_spec (bus : I2CBus) (s : gt911_state) (st : Nat)
    (hinit : s.dev.initialized = true)
    (hst : bus GT911_REG_STATUS = some st) (hb : st < 256) :
    ((gt911_read_touch bus s).trace.filter I2CEvent.isWrite =
      if st.testBit 7 = true ∨ st % 16 < 6 then [I2CEvent.write [0x81, 0x4E, 0x00]]
      else []) ∧
    (st = 0 →
      (gt911_read_touch bus s).out = some (s.last_x, s.last_y, false) ∧
      (gt911_read_touch bus s).state = s ∧
      (gt911_read_touch bus s).trace.filter I2CEvent.isWrite =
        [I2CEvent.write [0x81, 0x4E, 0x00]]) := by
  have hmod : st % 256 = st := Nat.mod_eq_of_lt hb
  constructor
  · simp only [gt911_read_touch, gt911_i2c_read_reg, hinit, hst, Option.map_some',
      hmod, GT911_STATUS_PT_MASK, GT911_STATUS_BUF_READY, land_fifteen]
    by_cases hcond : st.testBit 7 = true ∨ st % 16 < 6
    · have hcond2 : st &&& 0x80 ≠ 0 ∨ st % 16 < 6 := by
        rcases hcond with h | h
        · exact Or.inl ((land_bit_seven st).mpr h)
        · exact Or.inr h
      simp only [if_pos hcond, if_pos hcond2]
      by_cases h1 : st % 16 = 1
      · simp only [if_pos h1]
        cases hxl : bus GT911_REG_PT1_X_L with
        | none =>
          simp [gt911_read_event, gt911_i2c_read_reg, hxl, hst, I2CEvent.isWrite,
            gt911_clear_status]
        | some a =>
          cases hxh : bus GT911_REG_PT1_X_H with
          | none =>
            simp [gt911_read_event, gt911_i2c_read_reg, hxl, hxh, hst,
              I2CEvent.isWrite, gt911_clear_status]
          | some b =>
            cases hyl : bus GT911_REG_PT1_Y_L with
            | none =>
              simp [gt911_read_event, gt911_i2c_read_reg, hxl, hxh, hyl, hst,
                I2CEvent.isWrite, gt911_clear_status]
            | some c =>
              cases hyh : bus GT911_REG_PT1_Y_H with
              | none =>
                simp [gt911_read_event, gt911_i2c_read_reg, hxl, hxh, hyl, hyh, hst,
                  I2CEvent.isWrite, gt911_clear_status]
              | some d =>
                simp [gt911_read_event, gt911_i2c_read_reg, hxl, hxh, hyl, hyh, hst,
                  I2CEvent.isWrite, gt911_clear_status]
      · simp [if_neg h1, gt911_read_event, gt911_i2c_read_reg, hst, I2CEvent.isWrite,
          gt911_clear_status]
    · have hcond2 : ¬ (st &&& 0x80 ≠ 0 ∨ st % 16 < 6) := by
        intro hc
        apply hcond
        rcases hc with h | h
        · exact Or.inl ((land_bit_seven st).mp h)
        · exact Or.inr h
      have h1 : ¬ st % 16 = 1 := by
        intro h
        exact hcond (Or.inr (by omega))
      simp only [if_neg hcond, if_neg hcond2, if_neg h1]
      simp [gt911_read_event, gt911_i2c_read_reg, hst, I2CEvent.isWrite]
  · intro h0
    subst h0
    simp [gt911_read_touch, gt911_i2c_read_reg, hinit, hst, Option.map_some',
      gt911_read_event, I2CEvent.isWrite, gt911_clear_status, GT911_STATUS_PT_MASK,
      GT911_STATUS_BUF_READY]

/-- C3 witness: status byte 0x00 on an initialized device retaining
(100, 200) reports pressed = false with the retained coordinate, leaves the
state unchanged, and still acknowledges. -/
theorem gt911_read_touch_ack_spec_witness :
    (gt911_read_touch busStatusZero gt911_state_ready).out = some (100, 200, false) ∧
    (gt911_read_touch busStatusZero gt911_state_ready).state = gt911_state_ready ∧
    (gt911_read_touch busStatusZero gt911_state_ready).trace.filter I2CEvent.isWrite =
      [I2CEvent.write [0x81, 0x4E, 0x00]] := by
  have h := (gt911_read_touch_ack_spec busStatusZero gt911_state_ready 0
    rfl rfl (by decide)).2 rfl
  exact ⟨h.1, h.2.1, h.2.2⟩

/-- C4 counterexample: a failed single-contact read (status 0x81, X-low
delivering 0x05, X-high failing) returns failure yet alters the retained
coordinate from 100 to 5, contradicting that the retained coordinate is
never altered by a failed read. -/
theorem gt911_read_touch_partial_update :
    (gt911_read_touch busXHighFail gt911_state_ready).ok = false ∧
    gt911_state_ready.last_x = 100 ∧
    (gt911_read_touch busXHighFail gt911_state_ready).state.last_x = 5 := by
  decide

/-- C4 (amended): the retained coordinate is unchanged by a failed status
read and by any no-contact or multi-contact sample (which reports it with
pressed = false); on a single-contact sample whose four separate coordinate
reads all succeed it is overwritten with the little-endian assembled
coordinates and reported with pressed = true (a coordinate read failing
mid-sequence can leave a partially updated retained coordinate, as the
counterexample shows). -/
theorem gt911_read_touch_retained_spec (bus : I2CBus) (s : gt911_state)
    (hinit : s.dev.initialized = true) :
    (bus GT911_REG_STATUS = none →
      (gt911_read_touch bus s).ok = false ∧ (gt911_read_touch bus s).state = s) ∧
    (∀ st, bus GT911_REG_STATUS = some st →
      st % 256 &&& GT911_STATUS_PT_MASK ≠ 1 →
      (gt911_read_touch bus s).ok = true ∧
      (gt911_read_touch bus s).state = s ∧
      (gt911_read_touch bus s).out = some (s.last_x, s.last_y, false)) ∧
    (∀ st xl xh yl yh,
      st < 256 → xl < 256 → xh < 256 → yl < 256 → yh < 256 →
      bus GT911_REG_STATUS = some st →
      st &&& GT911_STATUS_PT_MASK = 1 →
      bus GT911_REG_PT1_X_L = some xl →
      bus GT911_REG_PT1_X_H = some xh →
      bus GT911_REG_PT1_Y_L = some yl →
      bus GT911_REG_PT1_Y_H = some yh →
      (gt911_read_touch bus s).ok = true ∧
      (gt911_read_touch bus s).state.last_x = xl + 256 * xh ∧
      (gt911_read_touch bus s).state.last_y = yl + 256 * yh ∧
      (gt911_read_touch bus s).out = some (xl + 256 * xh, yl + 256 * yh, true) ∧
      (gt911_read_touch bus s).trace =
        [I2CEvent.read GT911_REG_STATUS (some st), gt911_clear_status,
         I2CEvent.read GT911_REG_PT1_X_L (some xl),
         I2CEvent.read GT911_REG_PT1_X_H (some xh),
         I2CEvent.read GT911_REG_PT1_Y_L (some yl),
         I2CEvent.read GT911_REG_PT1_Y_H (some yh)]) := by
  refine ⟨?_, ?_, ?_⟩
  · intro hnone
    simp [gt911_read_touch, gt911_i2c_read_reg, hinit, hnone]
  · intro st hst hc
    simp [gt911_read_touch, gt911_i2c_read_reg, hinit, hst, Option.map_some', if_neg hc]
  · intro st xl xh yl yh hbs hbxl hbxh hbyl hbyh hst hcount hxl hxh hyl hyh
    have es : st % 256 = st := Nat.mod_eq_of_lt hbs
    have exl : xl % 256 = xl := Nat.mod_eq_of_lt hbxl
    have exh : xh % 256 = xh := Nat.mod_eq_of_lt hbxh
    have eyl : yl % 256 = yl := Nat.mod_eq_of_lt hbyl
    have eyh : yh % 256 = yh := Nat.mod_eq_of_lt hbyh
    have hack : st &&& GT911_STATUS_PT_MASK < 6 := by
      rw [hcount]
      norm_num
    simp only [gt911_read_touch, gt911_i2c_read_reg, gt911_read_event, hinit, hst, hxl,
      hxh, hyl, hyh, Option.map_some', es, exl, exh, eyl, eyh,
      if_pos (Or.inr hack), if_pos hcount]
    refine ⟨?_, ?_, ?_, ?_, ?_⟩
    · simp
    · simp [lor_shiftLeft_eight xl xh hbxl]
    · simp [lor_shiftLeft_eight yl yh hbyl]
    · simp [lor_shiftLeft_eight xl xh hbxl, lor_shiftLeft_eight yl yh hbyl]
    · simp

/-- C4 witness: the spec scenario (status 0x81, X bytes 0x64/0x00, Y bytes
0xC8/0x00) overwrites the retained coordinate with (100, 200) and reports
pressed = true. -/
theorem gt911_read_touch_retained_spec_witness :
    (gt911_read_touch busTouchScenario gt911_state_zero).ok = true ∧
    (gt911_read_touch busTouchScenario gt911_state_zero).state.last_x = 100 ∧
    (gt911_read_touch busTouchScenario gt911_state_zero).state.last_y = 200 ∧
    (gt911_read_touch busTouchScenario gt911_state_zero).out = some (100, 200, true) := by
  have h := (gt911_read_touch_retained_spec busTouchScenario gt911_state_zero rfl).2.2
    0x81 0x64 0x00 0xC8 0x00 (by decide) (by decide) (by decide) (by decide) (by decide)
    rfl (by decide) rfl rfl rfl rfl
  exact ⟨h.1, h.2.1, h.2.2.1, h.2.2.2.1⟩

/-- C5: disp_flush with updates disabled issues no bus transaction (no
set_window, no write_color) and only signals completion; with updates
enabled it sets the window for the area, writes width*height pixels, and
signals completion; in every case the completion signal occurs exactly
once. -/
theorem disp_flush_spec (en : Bool) (area : lv_area_t) :
    disp_flush false area = [DispEvent.flush_ready] ∧
    disp_flush true area =
      [DispEvent.set_window area.x1 area.y1 area.x2 area.y2,
       DispEvent.write_color (lv_area_get_width area * lv_area_get_height area),
       DispEvent.flush_ready] ∧
    (disp_flush en area).count DispEvent.flush_ready = 1 := by
  refine ⟨rfl, rfl, ?_⟩
  cases en <;> rfl

/-- C6: st7796_write_color emits exactly 2*count bytes for any pixel list,
nothing for the empty list, and the bytes are the pixels verbatim: bytes 2i
and 2i+1 are the low and high byte of pixel i, which reassemble to exactly
pixel i for 16-bit pixel values. -/
theorem st7796_write_color_spec (color : List Nat)
    (hc : ∀ p ∈ color, p < 65536) :
    (st7796_write_color color).length = 2 * color.length ∧
    st7796_write_color [] = [] ∧
    ∀ i p, color[i]? = some p →
      (st7796_write_color color)[2 * i]? = some (p % 256) ∧
      (st7796_write_color color)[2 * i + 1]? = some (p / 256) ∧
      p % 256 + 256 * (p / 256) = p := by
  refine ⟨st7796_write_color_length color, rfl, ?_⟩
  intro i p hip
  have hp : p < 65536 := hc p (List.getElem?_mem hip)
  have hdiv : p / 256 % 256 = p / 256 := Nat.mod_eq_of_lt (by omega)
  have h := st7796_write_color_getElem color i p hip
  exact ⟨h.1, by rw [← hdiv]; exact h.2, by omega⟩

/-- C6 witness: the two-pixel burst [100, 501] yields four bytes, with pixel
1 split into low byte 245 and high byte 1. -/
theorem st7796_write_color_spec_witness :
    (st7796_write_color [100, 501]).length = 2 * 2 ∧
    (st7796_write_color [100, 501])[2]? = some 245 ∧
    (st7796_write_color [100, 501])[3]? = some 1 := by
  have h := st7796_write_color_spec [100, 501] (by decide)
  refine ⟨h.1, ?_, ?_⟩
  · exact (h.2.2 1 501 rfl).1
  · exact (h.2.2 1 501 rfl).2.1

/-- C7: for each of the four orientations st7796_set_orientation emits the
MADCTL command followed by exactly one register byte -- 0x48, 0x28, 0x88 and
0xE8 respectively -- and persists the orientation for later query. -/
theorem st7796_set_orientation_spec (o : st7796_orientation_t) :
    (st7796_set_orientation o).1 = o ∧
    st7796_set_orientation .PORTRAIT =
      (.PORTRAIT, [SPIEvent.cmd 0x36, SPIEvent.data [0x48]]) ∧
    st7796_set_orientation .LANDSCAPE =
      (.LANDSCAPE, [SPIEvent.cmd 0x36, SPIEvent.data [0x28]]) ∧
    st7796_set_orientation .PORTRAIT_INV =
      (.PORTRAIT_INV, [SPIEvent.cmd 0x36, SPIEvent.data [0x88]]) ∧
    st7796_set_orientation .LANDSCAPE_INV =
      (.LANDSCAPE_INV, [SPIEvent.cmd 0x36, SPIEvent.data [0xE8]]) := by
  refine ⟨?_, rfl, rfl, rfl, rfl⟩
  cases o <;> rfl

/-- C8: for x1 at most x2 and y1 at most y2 (16-bit coordinates),
st7796_set_window emits exactly the column range command with the x bounds
as big-endian byte pairs, then the row range command likewise for the y
bounds, then the begin-memory-write command with no payload. -/
theorem st7796_set_window_spec (x1 y1 x2 y2 : Nat)
    (hx : x1 ≤ x2) (hy : y1 ≤ y2) (hx2 : x2 < 65536) (hy2 : y2 < 65536) :
    st7796_set_window x1 y1 x2 y2 =
      [SPIEvent.cmd 0x2A,
       SPIEvent.data [x1 / 256, x1 % 256, x2 / 256, x2 % 256],
       SPIEvent.cmd 0x2B,
       SPIEvent.data [y1 / 256, y1 % 256, y2 / 256, y2 % 256],
       SPIEvent.cmd 0x2C] := by
  have hhi : ∀ z : Nat, z < 65536 → (z >>> 8) &&& 0xFF = z / 256 := by
    intro z hz
    rw [Nat.shiftRight_eq_div_pow, land_twofiftyfive]
    have h1 : (2 : Nat) ^ 8 = 256 := by norm_num
    rw [h1]
    exact Nat.mod_eq_of_lt (by omega)
  have hx1 : x1 < 65536 := by omega
  have hy1 : y1 < 65536 := by omega
  unfold st7796_set_window st7796_write_cmd st7796_write_data
  rw [hhi x1 hx1, hhi x2 hx2, hhi y1 hy1, hhi y2 hy2,
      land_twofiftyfive x1, land_twofiftyfive x2, land_twofiftyfive y1,
      land_twofiftyfive y2]
  rfl

/-- C8 witness: the full-screen window (0,0)-(319,479). -/
theorem st7796_set_window_spec_witness :
    st7796_set_window 0 0 319 479 =
      [SPIEvent.cmd 0x2A, SPIEvent.data [0, 0, 1, 63],
       SPIEvent.cmd 0x2B, SPIEvent.data [0, 0, 1, 223],
       SPIEvent.cmd 0x2C] :=
  st7796_set_window_spec 0 0 319 479 (by decide) (by decide) (by decide) (by decide)

/-- C9: after a first successful gt911_init, a second call -- under any bus
behavior -- returns success immediately, with the device state unchanged and
no bus transaction issued. -/
theorem gt911_init_idempotent (i2c_ok i2c_ok2 : Bool) (bus bus2 : I2CBus)
    (dev : gt911_dev_t) (h : (gt911_init i2c_ok bus dev).1 = true) :
    gt911_init i2c_ok2 bus2 (gt911_init i2c_ok bus dev).2.1 =
      (true, (gt911_init i2c_ok bus dev).2.1, []) := by
  rcases gt911_init_cases i2c_ok bus dev with ⟨hf, _⟩ | ⟨_, hi⟩
  · rw [hf] at h
    exact absurd h (by simp)
  · exact gt911_init_already _ _ _ hi

/-- C9 witness: a second init after a successful first init on the spec
scenario bus. -/
theorem gt911_init_idempotent_witness :
    gt911_init true busResScenario
        (gt911_init true busResScenario gt911_dev_init).2.1 =
      (true, (gt911_init true busResScenario gt911_dev_init).2.1, []) :=
  gt911_init_idempotent true true busResScenario busResScenario gt911_dev_init
    (by decide)

/-- C10: in a single-contact sample on an initialized device the
acknowledgment write is issued on the bus before any coordinate-register
read: the trace is the status read, then immediately the acknowledgment
write, and every later event is a read of one of the four point-coordinate
registers. -/
theorem gt911_read_touch_ack_first (bus : I2CBus) (s : gt911_state) (st : Nat)
    (hinit : s.dev.initialized = true)
    (hst : bus GT911_REG_STATUS = some st)
    (hcount : st % 256 &&& GT911_STATUS_PT_MASK = 1) :
    ∃ rest, (gt911_read_touch bus s).trace =
      I2CEvent.read GT911_REG_STATUS (some (st % 256)) :: gt911_clear_status :: rest ∧
      ∀ e ∈ rest, ∃ r v, e = I2CEvent.read r v ∧
        (r = GT911_REG_PT1_X_L ∨ r = GT911_REG_PT1_X_H ∨
         r = GT911_REG_PT1_Y_L ∨ r = GT911_REG_PT1_Y_H) := by
  have hack : st % 256 &&& GT911_STATUS_PT_MASK < 6 := by
    rw [hcount]
    norm_num
  simp only [gt911_read_touch, gt911_i2c_read_reg, gt911_read_event, hinit, hst,
    Option.map_some', if_pos (Or.inr hack), if_pos hcount]
  cases hxl : bus GT911_REG_PT1_X_L with
  | none =>
    refine ⟨[I2CEvent.read GT911_REG_PT1_X_L none], by simp [hxl], ?_⟩
    intro e he
    simp only [List.mem_singleton] at he
    subst he
    exact ⟨_, _, rfl, Or.inl rfl⟩
  | some a =>
    cases hxh : bus GT911_REG_PT1_X_H with
    | none =>
      refine ⟨[I2CEvent.read GT911_REG_PT1_X_L (some (a % 256)),
               I2CEvent.read GT911_REG_PT1_X_H none], by simp [hxl, hxh], ?_⟩
      intro e he
      simp only [List.mem_cons, List.mem_singleton, List.not_mem_nil, or_false] at he
      rcases he with rfl | rfl
      · exact ⟨_, _, rfl, Or.inl rfl⟩
      · exact ⟨_, _, rfl, Or.inr (Or.inl rfl)⟩
    | some b =>
      cases hyl : bus GT911_REG_PT1_Y_L with
      | none =>
        refine ⟨[I2CEvent.read GT911_REG_PT1_X_L (some (a % 256)),
                 I2CEvent.read GT911_REG_PT1_X_H (some (b % 256)),
                 I2CEvent.read GT911_REG_PT1_Y_L none], by simp [hxl, hxh, hyl], ?_⟩
        intro e he
        simp only [List.mem_cons, List.mem_singleton, List.not_mem_nil, or_false] at he
        rcases he with rfl | rfl | rfl
        · exact ⟨_, _, rfl, Or.inl rfl⟩
        · exact ⟨_, _, rfl, Or.inr (Or.inl rfl)⟩
        · exact ⟨_, _, rfl, Or.inr (Or.inr (Or.inl rfl))⟩
      | some c =>
        cases hyh : bus GT911_REG_PT1_Y_H with
        | none =>
          refine ⟨[I2CEvent.read GT911_REG_PT1_X_L (some (a % 256)),
                   I2CEvent.read GT911_REG_PT1_X_H (some (b % 256)),
                   I2CEvent.read GT911_REG_PT1_Y_L (some (c % 256)),
                   I2CEvent.read GT911_REG_PT1_Y_H none],
                  by simp [hxl, hxh, hyl, hyh], ?_⟩
          intro e he
          simp only [List.mem_cons, List.mem_singleton, List.not_mem_nil, or_false] at he
          rcases he with rfl | rfl | rfl | rfl
          · exact ⟨_, _, rfl, Or.inl rfl⟩
          · exact ⟨_, _, rfl, Or.inr (Or.inl rfl)⟩
          · exact ⟨_, _, rfl, Or.inr (Or.inr (Or.inl rfl))⟩
          · exact ⟨_, _, rfl, Or.inr (Or.inr (Or.inr rfl))⟩
        | some d =>
          refine ⟨[I2CEvent.read GT911_REG_PT1_X_L (some (a % 256)),
                   I2CEvent.read GT911_REG_PT1_X_H (some (b % 256)),
                   I2CEvent.read GT911_REG_PT1_Y_L (some (c % 256)),
                   I2CEvent.read GT911_REG_PT1_Y_H (some (d % 256))],
                  by simp [hxl, hxh, hyl, hyh], ?_⟩
          intro e he
          simp only [List.mem_cons, List.mem_singleton, List.not_mem_nil, or_false] at he
          rcases he with rfl | rfl | rfl | rfl
          · exact ⟨_, _, rfl, Or.inl rfl⟩
          · exact ⟨_, _, rfl, Or.inr (Or.inl rfl)⟩
          · exact ⟨_, _, rfl, Or.inr (Or.inr (Or.inl rfl))⟩
          · exact ⟨_, _, rfl, Or.inr (Or.inr (Or.inr rfl))⟩

/-- C10 witness: on the single-touch scenario bus the trace opens with the
status read and the acknowledgment, followed only by coordinate reads. -/
theorem gt911_read_touch_ack_first_witness :
    ∃ rest, (gt911_read_touch busTouchScenario gt911_state_ready).trace =
      I2CEvent.read GT911_REG_STATUS (some (0x81 % 256)) :: gt911_clear_status :: rest ∧
      ∀ e ∈ rest, ∃ r v, e = I2CEvent.read r v ∧
        (r = GT911_REG_PT1_X_L ∨ r = GT911_REG_PT1_X_H ∨
         r = GT911_REG_PT1_Y_L ∨ r = GT911_REG_PT1_Y_H) :=
  gt911_read_touch_ack_first busTouchScenario gt911_state_ready 0x81 rfl rfl
    (by decide)

end PicoDevKit
